import Mathlib

/-!
Shallow embedding of WindowLasso's window & monitor state engine
(`src/types.rs`, `src/windows_api/windows.rs`), together with theorems
settling the specification claims about it.

Modelling conventions:
* Rust `i32` coordinates are modelled as `Int`.  Screen coordinates stay far
  from the ends of the `i32` range, so two's-complement wrap-around is not
  modelled.  Rust `i32` division truncates toward zero, hence `Int.tdiv`.
* Rust `String`s are modelled as `List Char`.  `str::to_lowercase` is
  modelled by ASCII lowercasing (every constant the program compares
  against is ASCII).
* OS calls are modelled by oracles: a record of the answers the OS would
  give, plus an explicit trace of the calls the code performs.
-/

/-- Rectangle type `WindowRect` from `src/types.rs`. -/
structure WindowRect where
  left : Int
  top : Int
  right : Int
  bottom : Int
deriving DecidableEq

namespace WindowRect

/-- Source method `WindowRect::width`. -/
def width (r : WindowRect) : Int := r.right - r.left

/-- Source method `WindowRect::height`. -/
def height (r : WindowRect) : Int := r.bottom - r.top

/-- Source method `WindowRect::center`; Rust `i32` division truncates toward zero. -/
def center (r : WindowRect) : Int × Int :=
  (r.left + Int.tdiv r.width 2, r.top + Int.tdiv r.height 2)

/-- Source method `WindowRect::intersects`: overlap on both axes under strict inequalities. -/
def intersects (r o : WindowRect) : Bool :=
  decide (r.left < o.right) && decide (r.right > o.left)
    && decide (r.top < o.bottom) && decide (r.bottom > o.top)

end WindowRect

/-- Monitor record `MonitorInfo` from `src/types.rs`. -/
structure MonitorInfo where
  handle : Int
  name : List Char
  device_name : List Char
  bounds : WindowRect
  work_area : WindowRect
  is_primary : Bool
  display_index : Nat
deriving DecidableEq

/-- Source method `MonitorInfo::center`: the center of the work area. -/
def MonitorInfo.center (m : MonitorInfo) : Int × Int := m.work_area.center

/-- Window record `WindowInfo` from `src/types.rs` (`icon_rgba` bytes as `Nat`s). -/
structure WindowInfo where
  hwnd : Int
  title : List Char
  process_name : List Char
  process_id : Nat
  rect : WindowRect
  is_visible : Bool
  is_offscreen : Bool
  is_minimized : Bool
  monitor_name : Option (List Char)
  icon_rgba : Option (List Nat)
  icon_size : Nat
deriving DecidableEq

/-- Rust `str::to_lowercase`, restricted to ASCII case mapping. -/
def to_lowercase (s : List Char) : List Char := s.map Char.toLower

/-- Haystack starts with needle (helper for `str::contains`). -/
def starts_with : List Char → List Char → Bool
  | _, [] => true
  | [], _ :: _ => false
  | a :: as, b :: bs => a == b && starts_with as bs

/-- Haystack contains needle as a contiguous substring (Rust `str::contains`). -/
def contains_sub : List Char → List Char → Bool
  | [], needle => starts_with [] needle
  | a :: t, needle => starts_with (a :: t) needle || contains_sub t needle

/-- Denylist `SKIP_TITLES` from `should_skip_window` in `src/windows_api/windows.rs`. -/
def SKIP_TITLES : List (List Char) :=
  ["Program Manager".toList,
   "Windows Input Experience".toList,
   "Microsoft Text Input Application".toList,
   "Settings".toList,
   "NVIDIA GeForce Overlay".toList,
   "Default IME".toList,
   "MSCTFIME UI".toList,
   "DWM Notification Window".toList]

/-- Source function `should_skip_window`: case-sensitive exact denylist match, then two
lowercase substring checks. -/
def should_skip_window (title : List Char) : Bool :=
  SKIP_TITLES.contains title
    || (let title_lower := to_lowercase title
        contains_sub title_lower "dwm notification".toList
          || contains_sub title_lower "desktop window manager".toList)

/-- Denylist `SKIP_PROCESSES` from `should_skip_process`. -/
def SKIP_PROCESSES : List (List Char) :=
  ["window-lasso".toList,
   "WindowLasso".toList,
   "dwm".toList,
   "csrss".toList,
   "conhost".toList,
   "ApplicationFrameHost".toList,
   "ShellExperienceHost".toList,
   "SystemSettings".toList,
   "SearchHost".toList,
   "StartMenuExperienceHost".toList,
   "TextInputHost".toList,
   "LockApp".toList]

/-- Source function `should_skip_process`: case-insensitive exact match against the denylist. -/
def should_skip_process (process_name : List Char) : Bool :=
  let name_lower := to_lowercase process_name
  SKIP_PROCESSES.any (fun p => name_lower == to_lowercase p)

/-- Source function `is_window_on_any_monitor`. -/
def is_window_on_any_monitor (rect : WindowRect) (monitors : List MonitorInfo) : Bool :=
  monitors.any (fun monitor => rect.intersects monitor.bounds)

/-- The half-open center containment test in `find_window_monitor`'s loop. -/
def center_in_bounds (rect : WindowRect) (monitor : MonitorInfo) : Bool :=
  decide (rect.center.1 ≥ monitor.bounds.left)
    && decide (rect.center.1 < monitor.bounds.right)
    && decide (rect.center.2 ≥ monitor.bounds.top)
    && decide (rect.center.2 < monitor.bounds.bottom)

/-- The overlap-area key used by `find_window_monitor`'s `max_by_key`. -/
def overlap_area (rect : WindowRect) (m : MonitorInfo) : Int :=
  let overlap_left := max rect.left m.bounds.left
  let overlap_right := min rect.right m.bounds.right
  let overlap_top := max rect.top m.bounds.top
  let overlap_bottom := min rect.bottom m.bounds.bottom
  (overlap_right - overlap_left) * (overlap_bottom - overlap_top)

/-- Rust `Iterator::max_by_key`: among elements with equal keys the LAST
element of the iterator is returned. -/
def max_by_key_last {α : Type} (key : α → Int) : List α → Option α
  | [] => none
  | a :: as =>
    match max_by_key_last key as with
    | none => some a
    | some b => if key b < key a then some a else some b

/-- Source function `find_window_monitor`: first monitor containing the window center
(half-open test); otherwise the intersecting monitor with the largest
overlap area via `max_by_key`. -/
def find_window_monitor (rect : WindowRect) (monitors : List MonitorInfo) :
    Option (List Char) :=
  match monitors.find? (fun m => center_in_bounds rect m) with
  | some monitor => some monitor.name
  | none =>
    (max_by_key_last (fun m => overlap_area rect m)
        (monitors.filter (fun m => rect.intersects m.bounds))).map
      (fun m => m.name)

/-- The per-window data `enum_windows_callback` queries from the OS:
flags, styles, title text, the two candidate rectangles (`none` models
the corresponding OS call failing), and process/icon information. -/
structure OsWindow where
  hwnd : Int
  is_iconic : Bool
  is_window_visible : Bool
  has_visible_style : Bool
  has_toolwindow_ex_style : Bool
  has_noactivate_ex_style : Bool
  has_appwindow_ex_style : Bool
  title : List Char
  placement_rect : Option WindowRect
  window_rect : Option WindowRect
  process_id : Nat
  process_name : Option (List Char)
  icon_rgba : Option (List Nat)
deriving DecidableEq

/-- Source callback `enum_windows_callback` as a pure candidate filter: `none` models the
callback returning without pushing a record, `some` the pushed record.
The exclusion rules follow the source order exactly. -/
def enum_windows_callback (w : OsWindow) : Option WindowInfo :=
  if !w.is_iconic && !w.is_window_visible then none
  else if !w.is_iconic && !w.has_visible_style then none
  else if w.has_toolwindow_ex_style then none
  else if w.has_noactivate_ex_style && !w.has_appwindow_ex_style then none
  else if w.title.length == 0 then none
  else if w.title.isEmpty || should_skip_window w.title then none
  else
    match (if w.is_iconic then w.placement_rect else w.window_rect) with
    | none => none
    | some rect =>
      if !w.is_iconic
          && (decide (rect.right - rect.left ≤ 0)
            || decide (rect.bottom - rect.top ≤ 0)) then none
      else
        let process_name := w.process_name.getD "Unknown".toList
        if should_skip_process process_name then none
        else
          some { hwnd := w.hwnd
                 title := w.title
                 process_name := process_name
                 process_id := w.process_id
                 rect := rect
                 is_visible := !w.is_iconic
                 is_offscreen := false
                 is_minimized := w.is_iconic
                 monitor_name := none
                 icon_rgba := w.icon_rgba
                 icon_size := 32 }

/-- Lexicographic comparison of char lists by code point, the order Rust's
`String::cmp` induces (UTF-8 byte order coincides with code-point order). -/
def cmp_chars : List Char → List Char → Ordering
  | [], [] => Ordering.eq
  | [], _ :: _ => Ordering.lt
  | _ :: _, [] => Ordering.gt
  | a :: as, b :: bs =>
    match compare a.toNat b.toNat with
    | Ordering.eq => cmp_chars as bs
    | o => o

/-- The comparator of `enumerate_windows`' `sort_by`: off-screen windows
first, then case-insensitive title order. -/
def window_cmp (a b : WindowInfo) : Ordering :=
  match a.is_offscreen, b.is_offscreen with
  | true, false => Ordering.lt
  | false, true => Ordering.gt
  | _, _ => cmp_chars (to_lowercase a.title) (to_lowercase b.title)

/-- The boolean "a precedes-or-ties b" relation induced by `window_cmp`;
Rust `sort_by` is a stable sort w.r.t. this relation. -/
def window_le (a b : WindowInfo) : Bool := !(window_cmp a b == Ordering.gt)

/-- The classification loop of `enumerate_windows` (lines 38-41): set the
off-screen flag and the assigned monitor from the captured monitor list. -/
def classify_window (monitors : List MonitorInfo) (w : WindowInfo) : WindowInfo :=
  { w with
    is_offscreen := !is_window_on_any_monitor w.rect monitors
    monitor_name := find_window_monitor w.rect monitors }

/-- Source function `enumerate_windows`, with the OS's window enumeration supplied as the
list `os_windows`: collect the records the callback pushes, classify each
against `monitors`, and stably sort (Rust `sort_by` is stable; a stable
sort's output is uniquely determined, so `List.mergeSort` models it). -/
def enumerate_windows (monitors : List MonitorInfo) (os_windows : List OsWindow) :
    List WindowInfo :=
  let collected := os_windows.filterMap enum_windows_callback
  let classified := collected.map (classify_window monitors)
  classified.mergeSort window_le

/-- Show command `SW_RESTORE`. -/
def SW_RESTORE : Nat := 9

/-- Show command `SW_MAXIMIZE`. -/
def SW_MAXIMIZE : Nat := 3

/-- The OS calls `move_window_to_monitor_with_options` and
`move_to_next_monitor` perform, with the arguments the code passes. -/
inductive OsCall where
  | getPlacement
  | setPlacement (rect : WindowRect) (showCmd : Nat)
  | setPos (x y w h : Int)
  | showWindow (cmd : Nat)
  | setForeground
  | getWindowRect
deriving DecidableEq

/-- Oracle for one repositioning call: the window-state answers and the
success/failure of each fallible OS call.  `GetWindowPlacement`,
`SetWindowPlacement` and `SetWindowPos` return `windows::core::Result` in
the source; `ShowWindow` and `SetForegroundWindow` return a `BOOL` the
source discards (`let _ = ...`), so they carry no failure channel here.
`err_get`/`err_set`/`err_pos` are the OS error display texts interpolated
into the `format!` messages. -/
structure MoveOracle where
  placement_rect : Option WindowRect
  was_minimized : Bool
  was_maximized : Bool
  set_placement_ok : Bool
  set_pos_ok : Bool
  err_get : String
  err_set : String
  err_pos : String
deriving DecidableEq

/-- The pure geometry computation of `move_window_to_monitor_with_options`
(lines 463-505): `(new_x, new_y, width, height)`.  The f64 proportional
scaling of lines 468-480 is abstracted as `scale_fn` (floating point is
out of scope); every theorem below holds for every such function. -/
def compute_target_geom (current : WindowRect) (target : MonitorInfo)
    (source : Option MonitorInfo) (scale_fn : Int → Int → Int × Int) :
    Int × Int × Int × Int :=
  let width := current.right - current.left
  let height := current.bottom - current.top
  let scaled :=
    match source with
    | some _ => scale_fn width height
    | none => (width, height)
  let work_width := target.work_area.width
  let work_height := target.work_area.height
  let width := min scaled.1 work_width
  let height := min scaled.2 work_height
  let center_x := target.center.1
  let center_y := target.center.2
  let new_x := max (center_x - Int.tdiv width 2) target.work_area.left
  let new_y := max (center_y - Int.tdiv height 2) target.work_area.top
  let new_x := min new_x (target.work_area.right - width)
  let new_y := min new_y (target.work_area.bottom - height)
  (new_x, new_y, width, height)

/-- The rectangle written into `placement.rcNormalPosition` (lines 500-505). -/
def compute_target_rect (current : WindowRect) (target : MonitorInfo)
    (source : Option MonitorInfo) (scale_fn : Int → Int → Int × Int) : WindowRect :=
  let g := compute_target_geom current target source scale_fn
  { left := g.1, top := g.2.1, right := g.1 + g.2.2.1, bottom := g.2.1 + g.2.2.2 }

/-- Source function `move_window_to_monitor_with_options`: result plus the trace of OS
calls performed, in order.  Control flow follows the source exactly:
read placement (abort on failure), compute geometry, then branch on
maximized / minimized / normal, aborting on the first failed fallible
call; `ShowWindow` and `SetForegroundWindow` results are discarded. -/
def move_window_to_monitor_with_options (o : MoveOracle) (target : MonitorInfo)
    (source : Option MonitorInfo) (scale_fn : Int → Int → Int × Int)
    (maximize auto_focus : Bool) : Except String Unit × List OsCall :=
  match o.placement_rect with
  | none =>
    (Except.error ("Failed to get window placement: " ++ o.err_get), [OsCall.getPlacement])
  | some current =>
    let g := compute_target_geom current target source scale_fn
    let new_x := g.1
    let new_y := g.2.1
    let width := g.2.2.1
    let height := g.2.2.2
    let new_rect := compute_target_rect current target source scale_fn
    let focus_tail : List OsCall := if auto_focus then [OsCall.setForeground] else []
    if o.was_maximized then
      if !o.set_placement_ok then
        (Except.error ("Failed to restore window: " ++ o.err_set),
         [OsCall.getPlacement, OsCall.setPlacement new_rect SW_RESTORE])
      else if !o.set_pos_ok then
        (Except.error ("Failed to move window: " ++ o.err_pos),
         [OsCall.getPlacement, OsCall.setPlacement new_rect SW_RESTORE,
          OsCall.setPos new_x new_y width height])
      else
        (Except.ok (),
         [OsCall.getPlacement, OsCall.setPlacement new_rect SW_RESTORE,
            OsCall.setPos new_x new_y width height]
           ++ (if maximize then [OsCall.showWindow SW_MAXIMIZE] else [])
           ++ focus_tail)
    else if o.was_minimized then
      let show_cmd := if maximize then SW_MAXIMIZE else SW_RESTORE
      if !o.set_placement_ok then
        (Except.error ("Failed to set window placement: " ++ o.err_set),
         [OsCall.getPlacement, OsCall.setPlacement new_rect show_cmd])
      else
        (Except.ok (),
         [OsCall.getPlacement, OsCall.setPlacement new_rect show_cmd] ++ focus_tail)
    else
      if !o.set_pos_ok then
        (Except.error ("Failed to move window: " ++ o.err_pos),
         [OsCall.getPlacement, OsCall.setPos new_x new_y width height])
      else
        (Except.ok (),
         [OsCall.getPlacement, OsCall.setPos new_x new_y width height]
           ++ (if maximize then [OsCall.showWindow SW_MAXIMIZE] else [])
           ++ focus_tail)

/-- Placeholder record for the (always in-range) list indexing in
`move_to_next_monitor`; see `move_to_next_monitor` below. -/
def default_monitor : MonitorInfo :=
  { handle := 0, name := [], device_name := [],
    bounds := { left := 0, top := 0, right := 0, bottom := 0 },
    work_area := { left := 0, top := 0, right := 0, bottom := 0 },
    is_primary := false, display_index := 0 }

/-- Source function `move_to_next_monitor`: error on an empty monitor list, silent success
with no OS call on a single monitor, otherwise read the window rect
(`window_rect = none` models `GetWindowRect` failing), find the current
monitor index (default 0), and move to index `(current + 1) % count` with
the current monitor as scaling source, `maximize = false`,
`auto_focus = true`.  The `getD` indexings model Rust's `monitors[i]`;
both indices are in range whenever this branch is reached. -/
def move_to_next_monitor (monitors : List MonitorInfo)
    (window_rect : Option WindowRect) (err_rect : String) (o : MoveOracle)
    (scale_fn : Int → Int → Int × Int) : Except String Unit × List OsCall :=
  if monitors.isEmpty then
    (Except.error "No monitors available", [])
  else if monitors.length == 1 then
    (Except.ok (), [])
  else
    match window_rect with
    | none =>
      (Except.error ("Failed to get window rect: " ++ err_rect), [OsCall.getWindowRect])
    | some wr =>
      let current_idx :=
        ((find_window_monitor wr monitors).bind
            (fun name => monitors.findIdx? (fun m => m.name == name))).getD 0
      let next_idx := (current_idx + 1) % monitors.length
      let next_monitor := monitors.getD next_idx default_monitor
      let current_monitor := monitors.getD current_idx default_monitor
      let r := move_window_to_monitor_with_options o next_monitor
        (some current_monitor) scale_fn false true
      (r.1, OsCall.getWindowRect :: r.2)

/-! ### Helper lemmas -/

theorem starts_with_iff (hay needle : List Char) :
    starts_with hay needle = true ↔ ∃ t, hay = needle ++ t := by
  induction needle generalizing hay with
  | nil => cases hay <;> simp [starts_with]
  | cons b bs ih =>
    cases hay with
    | nil => simp [starts_with]
    | cons a as =>
      simp only [starts_with, Bool.and_eq_true, beq_iff_eq, ih, List.cons_append,
        List.cons.injEq]
      constructor
      · rintro ⟨rfl, t, rfl⟩
        exact ⟨t, rfl, rfl⟩
      · rintro ⟨t, rfl, rfl⟩
        exact ⟨rfl, t, rfl⟩

theorem contains_sub_iff (hay needle : List Char) :
    contains_sub hay needle = true ↔ ∃ s t, hay = s ++ needle ++ t := by
  induction hay with
  | nil =>
    simp only [contains_sub, starts_with_iff]
    constructor
    · rintro ⟨t, ht⟩
      exact ⟨[], t, by simpa using ht⟩
    · rintro ⟨s, t, ht⟩
      refine ⟨t, ?_⟩
      rcases s with _ | ⟨x, s⟩
      · simpa using ht
      · simp at ht
  | cons a hay ih =>
    simp only [contains_sub, Bool.or_eq_true, starts_with_iff, ih]
    constructor
    · rintro (⟨t, ht⟩ | ⟨s, t, ht⟩)
      · exact ⟨[], t, by simpa using ht⟩
      · exact ⟨a :: s, t, by simp [ht]⟩
    · rintro ⟨s, t, ht⟩
      rcases s with _ | ⟨x, s⟩
      · exact Or.inl ⟨t, by simpa using ht⟩
      · simp only [List.cons_append, List.cons.injEq] at ht
        exact Or.inr ⟨s, t, ht.2⟩

theorem nat_compare_swap (a b : Nat) : compare b a = (compare a b).swap := by
  rcases lt_trichotomy a b with h | h | h
  · rw [Nat.compare_eq_lt.mpr h, Nat.compare_eq_gt.mpr h]
    rfl
  · rw [Nat.compare_eq_eq.mpr h, Nat.compare_eq_eq.mpr h.symm]
    rfl
  · rw [Nat.compare_eq_gt.mpr h, Nat.compare_eq_lt.mpr h]
    rfl

theorem cmp_chars_self (l : List Char) : cmp_chars l l = Ordering.eq := by
  induction l with
  | nil => rfl
  | cons a as ih => simp [cmp_chars, Nat.compare_eq_eq.mpr rfl, ih]

theorem cmp_chars_swap (as bs : List Char) :
    cmp_chars bs as = (cmp_chars as bs).swap := by
  induction as generalizing bs with
  | nil => cases bs <;> rfl
  | cons a as ih =>
    cases bs with
    | nil => rfl
    | cons b bs =>
      simp only [cmp_chars, nat_compare_swap a.toNat b.toNat]
      rcases hab : compare a.toNat b.toNat with _ | _ | _ <;> simp [Ordering.swap, ih]

theorem cmp_chars_le_trans {as bs cs : List Char}
    (h1 : cmp_chars as bs ≠ Ordering.gt) (h2 : cmp_chars bs cs ≠ Ordering.gt) :
    cmp_chars as cs ≠ Ordering.gt := by
  induction as generalizing bs cs with
  | nil => cases cs <;> simp [cmp_chars]
  | cons a as ih =>
    cases bs with
    | nil => simp [cmp_chars] at h1
    | cons b bs =>
      cases cs with
      | nil => simp [cmp_chars] at h2
      | cons c cs =>
        simp only [cmp_chars] at h1 h2 ⊢
        rcases hab : compare a.toNat b.toNat with _ | _ | _ <;> rw [hab] at h1
        · rcases hbc : compare b.toNat c.toNat with _ | _ | _ <;> rw [hbc] at h2
          · rw [Nat.compare_eq_lt.mpr
              (lt_trans (Nat.compare_eq_lt.mp hab) (Nat.compare_eq_lt.mp hbc))]
            simp
          · rw [Nat.compare_eq_lt.mpr (Nat.compare_eq_eq.mp hbc ▸ Nat.compare_eq_lt.mp hab)]
            simp
          · exact absurd rfl h2
        · rcases hbc : compare b.toNat c.toNat with _ | _ | _ <;> rw [hbc] at h2
          · rw [Nat.compare_eq_lt.mpr (Nat.compare_eq_eq.mp hab ▸ Nat.compare_eq_lt.mp hbc)]
            simp
          · rw [Nat.compare_eq_eq.mpr (Nat.compare_eq_eq.mp hab ▸ Nat.compare_eq_eq.mp hbc)]
            exact ih h1 h2
          · exact absurd rfl h2
        · exact absurd rfl h1

theorem max_by_key_last_eq_none {α : Type} {key : α → Int} {l : List α} :
    max_by_key_last key l = none ↔ l = [] := by
  cases l with
  | nil => simp [max_by_key_last]
  | cons a as =>
    simp only [max_by_key_last]
    cases h : max_by_key_last key as with
    | none => simp
    | some b =>
      by_cases hk : key b < key a <;> simp [hk]

theorem max_by_key_last_mem {α : Type} {key : α → Int} {l : List α} {a : α}
    (h : max_by_key_last key l = some a) : a ∈ l := by
  induction l with
  | nil => simp [max_by_key_last] at h
  | cons x xs ih =>
    simp only [max_by_key_last] at h
    cases hx : max_by_key_last key xs with
    | none =>
      rw [hx] at h
      simp at h
      simp [h]
    | some b =>
      rw [hx] at h
      by_cases hk : key b < key x <;> simp [hk] at h <;> subst h
      · exact List.mem_cons_self _ _
      · exact List.mem_cons_of_mem _ (ih hx)

theorem max_by_key_last_spec {α : Type} {key : α → Int} (l : List α) :
    ∀ {a : α}, max_by_key_last key l = some a →
      ∃ l₁ l₂, l = l₁ ++ a :: l₂ ∧ (∀ b ∈ l, key b ≤ key a)
        ∧ ∀ b ∈ l₂, key b < key a := by
  induction l with
  | nil => intro a h; simp [max_by_key_last] at h
  | cons x xs ih =>
    intro a h
    simp only [max_by_key_last] at h
    cases hx : max_by_key_last key xs with
    | none =>
      rw [hx] at h
      simp at h
      subst h
      have hnil : xs = [] := max_by_key_last_eq_none.mp hx
      subst hnil
      exact ⟨[], [], rfl, by simp, by simp⟩
    | some b =>
      rw [hx] at h
      by_cases hk : key b < key x <;> simp [hk] at h <;> subst h
      · obtain ⟨l₁, l₂, hdecomp, hmax, hstrict⟩ := ih hx
        refine ⟨[], xs, rfl, ?_, ?_⟩
        · intro c hc
          rcases List.mem_cons.mp hc with rfl | hc
          · exact le_refl _
          · exact le_of_lt (lt_of_le_of_lt (hmax c hc) hk)
        · intro c hc
          exact lt_of_le_of_lt (hmax c hc) hk
      · obtain ⟨l₁, l₂, hdecomp, hmax, hstrict⟩ := ih hx
        refine ⟨x :: l₁, l₂, by simp [hdecomp], ?_, hstrict⟩
        intro c hc
        rcases List.mem_cons.mp hc with rfl | hc
        · exact not_lt.mp hk
        · exact hmax c hc

theorem tdiv_two_bounds {w : Int} (hw : 0 < w) :
    0 ≤ Int.tdiv w 2 ∧ Int.tdiv w 2 < w := by
  constructor
  · exact Int.tdiv_nonneg hw.le (by norm_num)
  · rw [Int.tdiv_eq_ediv hw.le (by norm_num)]
    omega

/-- A rectangle with positive width and height whose center lies in a
monitor's bounds (half-open test) intersects those bounds (open test). -/
theorem center_in_bounds_intersects {rect : WindowRect} {m : MonitorInfo}
    (hw : 0 < rect.width) (hh : 0 < rect.height)
    (h : center_in_bounds rect m = true) : rect.intersects m.bounds = true := by
  simp only [center_in_bounds, WindowRect.center, ge_iff_le, Bool.and_eq_true,
    decide_eq_true_eq] at h
  obtain ⟨⟨⟨h1, h2⟩, h3⟩, h4⟩ := h
  obtain ⟨q1, q2⟩ := tdiv_two_bounds hw
  obtain ⟨q3, q4⟩ := tdiv_two_bounds hh
  simp only [WindowRect.intersects, Bool.and_eq_true, decide_eq_true_eq, gt_iff_lt]
  unfold WindowRect.width WindowRect.height at *
  refine ⟨⟨⟨?_, ?_⟩, ?_⟩, ?_⟩ <;> omega

/-- If `find_window_monitor` assigns a monitor to a positive-size rectangle,
some monitor's bounds intersect it. -/
theorem find_window_monitor_isSome_on {rect : WindowRect}
    {monitors : List MonitorInfo} (hw : 0 < rect.width) (hh : 0 < rect.height)
    (h : (find_window_monitor rect monitors).isSome = true) :
    is_window_on_any_monitor rect monitors = true := by
  unfold find_window_monitor at h
  cases hf : monitors.find? (fun m => center_in_bounds rect m) with
  | some m =>
    have hcenter : center_in_bounds rect m = true := List.find?_some hf
    have hmem : m ∈ monitors := List.mem_of_find?_eq_some hf
    exact List.any_eq_true.mpr ⟨m, hmem, center_in_bounds_intersects hw hh hcenter⟩
  | none =>
    rw [hf] at h
    obtain ⟨nm, hm⟩ := Option.isSome_iff_exists.mp h
    obtain ⟨m, hmax, rfl⟩ := Option.map_eq_some'.mp hm
    have hmem := max_by_key_last_mem hmax
    have := List.mem_filter.mp hmem
    exact List.any_eq_true.mpr ⟨m, this.1, this.2⟩

/-- Unfold membership in the `enumerate_windows` pipeline: the sort is a
permutation, so the members are exactly the classified callback outputs. -/
theorem mem_enumerate_windows {monitors : List MonitorInfo}
    {os_windows : List OsWindow} {w : WindowInfo} :
    w ∈ enumerate_windows monitors os_windows ↔
      ∃ ow ∈ os_windows, ∃ w₀, enum_windows_callback ow = some w₀
        ∧ w = classify_window monitors w₀ := by
  unfold enumerate_windows
  rw [(List.mergeSort_perm _ _).mem_iff]
  simp only [List.mem_map, List.mem_filterMap]
  constructor
  · rintro ⟨w₀, ⟨ow, how, hcb⟩, rfl⟩
    exact ⟨ow, how, w₀, hcb, rfl⟩
  · rintro ⟨ow, how, w₀, hcb, rfl⟩
    exact ⟨w₀, ⟨ow, how, hcb⟩, rfl⟩

/-- The record `enum_windows_callback` pushes: its `is_visible` field is the
negation of `is_minimized`, and both reflect the queried iconic state. -/
theorem enum_windows_callback_flags {ow : OsWindow} {wi : WindowInfo}
    (h : enum_windows_callback ow = some wi) :
    wi.is_visible = !ow.is_iconic ∧ wi.is_minimized = ow.is_iconic := by
  unfold enum_windows_callback at h
  repeat' split at h
  all_goals try exact Option.noConfusion h
  dsimp only at h
  split at h
  · exact Option.noConfusion h
  · injection h with h2
    subst h2
    exact ⟨rfl, rfl⟩

/-- The off-screen flag computed by the classification step, spelled out as
the open-interval intersection test. -/
theorem offscreen_flag_correct (rect : WindowRect) (monitors : List MonitorInfo) :
    ((!is_window_on_any_monitor rect monitors) = true ↔
      ∀ m ∈ monitors,
        ¬(rect.left < m.bounds.right ∧ rect.right > m.bounds.left
          ∧ rect.top < m.bounds.bottom ∧ rect.bottom > m.bounds.top)) := by
  simp only [Bool.not_eq_true', is_window_on_any_monitor, List.any_eq_false,
    WindowRect.intersects, Bool.and_eq_true, decide_eq_true_eq, gt_iff_lt]
  constructor <;> intro h m hm <;> have := h m hm <;> tauto

/-! ### Concrete fixtures used by witnesses -/

def fixture_monitor : MonitorInfo :=
  { handle := 1, name := "Display 1 (Primary)".toList, device_name := [],
    bounds := ⟨0, 0, 100, 100⟩, work_area := ⟨0, 0, 100, 90⟩,
    is_primary := true, display_index := 0 }

def fixture_os_window : OsWindow :=
  { hwnd := 7, is_iconic := false, is_window_visible := true,
    has_visible_style := true, has_toolwindow_ex_style := false,
    has_noactivate_ex_style := false, has_appwindow_ex_style := false,
    title := "app".toList, placement_rect := some ⟨0, 0, 10, 10⟩,
    window_rect := some ⟨10, 10, 30, 30⟩, process_id := 5,
    process_name := some "app".toList, icon_rgba := none }

/-- The record `enum_windows_callback` pushes for `fixture_os_window`,
before classification. -/
def fixture_collected : WindowInfo :=
  { hwnd := 7, title := "app".toList, process_name := "app".toList, process_id := 5,
    rect := ⟨10, 10, 30, 30⟩, is_visible := true, is_offscreen := false,
    is_minimized := false, monitor_name := none,
    icon_rgba := none, icon_size := 32 }

/-- The record `enumerate_windows [fixture_monitor] [fixture_os_window]`
produces for `fixture_os_window`. -/
def fixture_window : WindowInfo :=
  { hwnd := 7, title := "app".toList, process_name := "app".toList, process_id := 5,
    rect := ⟨10, 10, 30, 30⟩, is_visible := true, is_offscreen := false,
    is_minimized := false, monitor_name := some "Display 1 (Primary)".toList,
    icon_rgba := none, icon_size := 32 }

theorem fixture_window_mem :
    fixture_window ∈ enumerate_windows [fixture_monitor] [fixture_os_window] :=
  mem_enumerate_windows.mpr
    ⟨fixture_os_window, by decide, fixture_collected, by decide, by decide⟩

/-! ### Claim theorems -/

/-- C5: for every window produced by an enumeration cycle, the off-screen
flag is true iff no monitor of the cycle's monitor list has bounds
intersecting the window's rectangle, where intersection is the
open-interval (strict inequality) test on both axes, so rectangles that
merely touch at an edge do not intersect. -/
theorem offscreen_iff_no_monitor_intersects (monitors : List MonitorInfo)
    (os_windows : List OsWindow) :
    ∀ w ∈ enumerate_windows monitors os_windows,
      (w.is_offscreen = true ↔
        ∀ m ∈ monitors,
          ¬(w.rect.left < m.bounds.right ∧ w.rect.right > m.bounds.left
            ∧ w.rect.top < m.bounds.bottom ∧ w.rect.bottom > m.bounds.top)) := by
  intro w hw
  obtain ⟨ow, -, w₀, hcb, rfl⟩ := mem_enumerate_windows.mp hw
  exact offscreen_flag_correct w₀.rect monitors

/-- Witness for C5 at a concrete enumeration. -/
theorem offscreen_iff_no_monitor_intersects_witness :
    fixture_window.is_offscreen = true ↔
      ∀ m ∈ [fixture_monitor],
        ¬(fixture_window.rect.left < m.bounds.right
          ∧ fixture_window.rect.right > m.bounds.left
          ∧ fixture_window.rect.top < m.bounds.bottom
          ∧ fixture_window.rect.bottom > m.bounds.top) :=
  offscreen_iff_no_monitor_intersects [fixture_monitor] [fixture_os_window]
    fixture_window fixture_window_mem

/-- C9: a window record produced by enumeration whose rectangle has positive
width and height and which has an assigned monitor name is not flagged
off-screen. -/
theorem assigned_monitor_implies_onscreen (monitors : List MonitorInfo)
    (os_windows : List OsWindow) :
    ∀ w ∈ enumerate_windows monitors os_windows,
      0 < w.rect.width → 0 < w.rect.height → w.monitor_name.isSome = true →
        w.is_offscreen = false := by
  intro w hw hww hwh hname
  obtain ⟨ow, -, w₀, hcb, rfl⟩ := mem_enumerate_windows.mp hw
  have hon : is_window_on_any_monitor w₀.rect monitors = true :=
    find_window_monitor_isSome_on hww hwh hname
  show (!is_window_on_any_monitor w₀.rect monitors) = false
  rw [hon]
  rfl

/-- Witness for C9 at a concrete enumeration. -/
theorem assigned_monitor_implies_onscreen_witness :
    fixture_window.is_offscreen = false :=
  assigned_monitor_implies_onscreen [fixture_monitor] [fixture_os_window]
    fixture_window fixture_window_mem (by decide) (by decide) (by decide)

/-- C10: every window record produced by `enumerate_windows` has
`is_visible = !is_minimized`; the visibility flag is derived from the
minimized flag, not recorded independently. -/
theorem is_visible_eq_not_minimized (monitors : List MonitorInfo)
    (os_windows : List OsWindow) :
    ∀ w ∈ enumerate_windows monitors os_windows, w.is_visible = !w.is_minimized := by
  intro w hw
  obtain ⟨ow, -, w₀, hcb, rfl⟩ := mem_enumerate_windows.mp hw
  obtain ⟨h1, h2⟩ := enum_windows_callback_flags hcb
  show w₀.is_visible = !w₀.is_minimized
  rw [h1, h2]

/-- Witness for C10 at a concrete enumeration. -/
theorem is_visible_eq_not_minimized_witness :
    fixture_window.is_visible = !fixture_window.is_minimized :=
  is_visible_eq_not_minimized [fixture_monitor] [fixture_os_window]
    fixture_window fixture_window_mem

/-- The clamped size never exceeds the target work area's size. -/
theorem compute_target_geom_size_le (current : WindowRect) (target : MonitorInfo)
    (source : Option MonitorInfo) (scale_fn : Int → Int → Int × Int) :
    (compute_target_geom current target source scale_fn).2.2.1
        ≤ target.work_area.width
      ∧ (compute_target_geom current target source scale_fn).2.2.2
        ≤ target.work_area.height := by
  unfold compute_target_geom
  dsimp only
  exact ⟨min_le_right _ _, min_le_right _ _⟩

/-- The written placement rectangle has exactly the computed size. -/
theorem compute_target_rect_size (current : WindowRect) (target : MonitorInfo)
    (source : Option MonitorInfo) (scale_fn : Int → Int → Int × Int) :
    (compute_target_rect current target source scale_fn).width
        = (compute_target_geom current target source scale_fn).2.2.1
      ∧ (compute_target_rect current target source scale_fn).height
        = (compute_target_geom current target source scale_fn).2.2.2 := by
  unfold compute_target_rect WindowRect.width WindowRect.height
  dsimp only
  constructor <;> ring

/-- C7: the target top-left computed by `move_window_to_monitor_with_options`
is the work-area-centered position clamped into the work area; whenever the
work area is at least as large as the clamped window size, it equals
`max(work_area.left, min(center_x - width/2, work_area.right - width))`,
and symmetrically for y, so right/bottom containment takes precedence over
perfect centering. -/
theorem move_window_target_position_centered_clamped (current : WindowRect)
    (target : MonitorInfo) (source : Option MonitorInfo)
    (scale_fn : Int → Int → Int × Int)
    (hw : (compute_target_geom current target source scale_fn).2.2.1
      ≤ target.work_area.width)
    (hh : (compute_target_geom current target source scale_fn).2.2.2
      ≤ target.work_area.height) :
    (compute_target_geom current target source scale_fn).1
        = max target.work_area.left
            (min
              (target.center.1
                - Int.tdiv (compute_target_geom current target source scale_fn).2.2.1 2)
              (target.work_area.right
                - (compute_target_geom current target source scale_fn).2.2.1))
      ∧ (compute_target_geom current target source scale_fn).2.1
        = max target.work_area.top
            (min
              (target.center.2
                - Int.tdiv (compute_target_geom current target source scale_fn).2.2.2 2)
              (target.work_area.bottom
                - (compute_target_geom current target source scale_fn).2.2.2)) := by
  unfold compute_target_geom WindowRect.width WindowRect.height at *
  dsimp only at *
  constructor <;> omega

/-- Witness for C7 at concrete geometry: a 50x40 window moved to
`fixture_monitor` is centered at (25, 25) in its 100x90 work area. -/
theorem move_window_target_position_centered_clamped_witness :
    (compute_target_geom ⟨0, 0, 50, 40⟩ fixture_monitor none (fun w h => (w, h))).1
        = max fixture_monitor.work_area.left
            (min
              (fixture_monitor.center.1
                - Int.tdiv (compute_target_geom ⟨0, 0, 50, 40⟩ fixture_monitor none
                    (fun w h => (w, h))).2.2.1 2)
              (fixture_monitor.work_area.right
                - (compute_target_geom ⟨0, 0, 50, 40⟩ fixture_monitor none
                    (fun w h => (w, h))).2.2.1))
      ∧ (compute_target_geom ⟨0, 0, 50, 40⟩ fixture_monitor none (fun w h => (w, h))).2.1
        = max fixture_monitor.work_area.top
            (min
              (fixture_monitor.center.2
                - Int.tdiv (compute_target_geom ⟨0, 0, 50, 40⟩ fixture_monitor none
                    (fun w h => (w, h))).2.2.2 2)
              (fixture_monitor.work_area.bottom
                - (compute_target_geom ⟨0, 0, 50, 40⟩ fixture_monitor none
                    (fun w h => (w, h))).2.2.2)) :=
  move_window_target_position_centered_clamped ⟨0, 0, 50, 40⟩ fixture_monitor none
    (fun w h => (w, h)) (by decide) (by decide)

/-- Sizes carried by a single OS call stay within the target work area. -/
def call_size_within (target : MonitorInfo) (c : OsCall) : Prop :=
  (∀ r cmd, c = OsCall.setPlacement r cmd →
      r.width ≤ target.work_area.width ∧ r.height ≤ target.work_area.height)
  ∧ ∀ x y w h, c = OsCall.setPos x y w h →
      w ≤ target.work_area.width ∧ h ≤ target.work_area.height

theorem call_size_within_get (target : MonitorInfo) :
    call_size_within target OsCall.getPlacement :=
  ⟨fun _ _ h => OsCall.noConfusion h, fun _ _ _ _ h => OsCall.noConfusion h⟩

theorem call_size_within_getrect (target : MonitorInfo) :
    call_size_within target OsCall.getWindowRect :=
  ⟨fun _ _ h => OsCall.noConfusion h, fun _ _ _ _ h => OsCall.noConfusion h⟩

theorem call_size_within_show (target : MonitorInfo) (cmd : Nat) :
    call_size_within target (OsCall.showWindow cmd) :=
  ⟨fun _ _ h => OsCall.noConfusion h, fun _ _ _ _ h => OsCall.noConfusion h⟩

theorem call_size_within_fore (target : MonitorInfo) :
    call_size_within target OsCall.setForeground :=
  ⟨fun _ _ h => OsCall.noConfusion h, fun _ _ _ _ h => OsCall.noConfusion h⟩

theorem call_size_within_sp (target : MonitorInfo) (r : WindowRect) (cmd : Nat)
    (h1 : r.width ≤ target.work_area.width)
    (h2 : r.height ≤ target.work_area.height) :
    call_size_within target (OsCall.setPlacement r cmd) := by
  constructor
  · intro r2 cmd2 h
    injection h with ha hb
    subst ha
    exact ⟨h1, h2⟩
  · intro _ _ _ _ h
    exact OsCall.noConfusion h

theorem call_size_within_pos (target : MonitorInfo) (x y w h : Int)
    (h1 : w ≤ target.work_area.width) (h2 : h ≤ target.work_area.height) :
    call_size_within target (OsCall.setPos x y w h) := by
  constructor
  · intro _ _ hh
    exact OsCall.noConfusion hh
  · intro x2 y2 w2 h2b hh
    injection hh with ha hb hcx hd
    subst hcx
    subst hd
    exact ⟨h1, h2⟩

/-- The written placement rectangle stays within the work-area size. -/
theorem compute_target_rect_size_le (current : WindowRect) (target : MonitorInfo)
    (source : Option MonitorInfo) (scale_fn : Int → Int → Int × Int) :
    (compute_target_rect current target source scale_fn).width
        ≤ target.work_area.width
      ∧ (compute_target_rect current target source scale_fn).height
        ≤ target.work_area.height := by
  have hrs := compute_target_rect_size current target source scale_fn
  have hgs := compute_target_geom_size_le current target source scale_fn
  rw [hrs.1, hrs.2]
  exact hgs

/-- C6: whenever `move_window_to_monitor_with_options` succeeds, every width
and height it wrote through a placement write or a move/resize call is at
most the target monitor's work-area width and height respectively, whether
or not a source monitor was supplied. -/
theorem move_window_written_size_within_work_area (o : MoveOracle)
    (target : MonitorInfo) (source : Option MonitorInfo)
    (scale_fn : Int → Int → Int × Int) (maximize auto_focus : Bool)
    (hok : (move_window_to_monitor_with_options o target source scale_fn
      maximize auto_focus).1 = Except.ok ()) :
    ∀ c ∈ (move_window_to_monitor_with_options o target source scale_fn
        maximize auto_focus).2, call_size_within target c := by
  obtain ⟨pr, wmin, wmax, spo, sps, eg, es, ep⟩ := o
  cases pr with
  | none =>
    exfalso
    simp [move_window_to_monitor_with_options] at hok
  | some current =>
    have hcr := compute_target_rect_size_le current target source scale_fn
    have hgs := compute_target_geom_size_le current target source scale_fn
    cases wmax <;> cases wmin <;> cases spo <;> cases sps <;>
      cases maximize <;> cases auto_focus <;>
      simp only [move_window_to_monitor_with_options] at hok ⊢ <;>
      simp at hok ⊢ <;>
      (repeat' apply And.intro) <;>
      first
      | exact fun r cmd h => OsCall.noConfusion h
      | exact fun x y w h hh => OsCall.noConfusion hh
      | (intro r cmd h
         injection h with h1 h2
         subst h1
         exact hcr)
      | (intro x y w h hh
         injection hh with h1 h2 h3 h4
         subst h3
         subst h4
         exact hgs)

/-- An all-success oracle for a normal (non-minimized, non-maximized)
window whose restore rectangle is 50x40 at the origin. -/
def fixture_oracle_ok : MoveOracle :=
  { placement_rect := some ⟨0, 0, 50, 40⟩, was_minimized := false,
    was_maximized := false, set_placement_ok := true, set_pos_ok := true,
    err_get := "", err_set := "", err_pos := "" }

/-- Witness for C6 at a concrete successful move: the move/resize call of
that move writes the 50x40 window at (25, 25). -/
theorem move_window_written_size_within_work_area_witness :
    call_size_within fixture_monitor (OsCall.setPos 25 25 50 40) :=
  move_window_written_size_within_work_area fixture_oracle_ok fixture_monitor
    none (fun w h => (w, h)) false false rfl (OsCall.setPos 25 25 50 40)
    (by decide)

/-- Whether the oracle makes a given OS call fail.  `showWindow` and
`setForeground` have no failure channel: in the source they return a
`BOOL` that is discarded, not a `Result`. -/
def call_fails (o : MoveOracle) : OsCall → Bool
  | OsCall.getPlacement => o.placement_rect.isNone
  | OsCall.setPlacement _ _ => !o.set_placement_ok
  | OsCall.setPos _ _ _ _ => !o.set_pos_ok
  | OsCall.showWindow _ => false
  | OsCall.setForeground => false
  | OsCall.getWindowRect => false

/-- The returned error message identifies the step a call belongs to:
placement read, placement write (restore or minimized-update), or
move/resize. -/
def error_names_step (o : MoveOracle) (e : String) : OsCall → Prop
  | OsCall.getPlacement => e = "Failed to get window placement: " ++ o.err_get
  | OsCall.setPlacement _ _ =>
      e = "Failed to restore window: " ++ o.err_set
        ∨ e = "Failed to set window placement: " ++ o.err_set
  | OsCall.setPos _ _ _ _ => e = "Failed to move window: " ++ o.err_pos
  | _ => False

/-- C1: in `move_window_to_monitor_with_options`, a failing OS call aborts
the operation: every call before the last one in the trace succeeded, a
successful result means no executed call failed, and an error result means
the last executed call failed and the message names that step. -/
theorem move_window_failure_aborts (o : MoveOracle) (target : MonitorInfo)
    (source : Option MonitorInfo) (scale_fn : Int → Int → Int × Int)
    (maximize auto_focus : Bool) :
    (∀ c ∈ (move_window_to_monitor_with_options o target source scale_fn
        maximize auto_focus).2.dropLast, call_fails o c = false)
    ∧ ((move_window_to_monitor_with_options o target source scale_fn
          maximize auto_focus).1 = Except.ok () →
        ∀ c ∈ (move_window_to_monitor_with_options o target source scale_fn
          maximize auto_focus).2, call_fails o c = false)
    ∧ ∀ e, (move_window_to_monitor_with_options o target source scale_fn
          maximize auto_focus).1 = Except.error e →
        ∃ c, (move_window_to_monitor_with_options o target source scale_fn
            maximize auto_focus).2.getLast? = some c
          ∧ call_fails o c = true ∧ error_names_step o e c := by
  obtain ⟨pr, wmin, wmax, spo, sps, eg, es, ep⟩ := o
  cases pr with
  | none =>
    simp [move_window_to_monitor_with_options, call_fails, error_names_step,
      List.dropLast, List.getLast?]
  | some current =>
    simp only [move_window_to_monitor_with_options]
    generalize compute_target_rect current target source scale_fn = R
    generalize compute_target_geom current target source scale_fn = G
    cases wmax <;> cases wmin <;> cases spo <;> cases sps <;>
      cases maximize <;> cases auto_focus <;>
      simp [call_fails, error_names_step, List.dropLast, List.getLast?]

/-- Oracle for a normal window whose move/resize call fails. -/
def fixture_oracle_posfail : MoveOracle :=
  { placement_rect := some ⟨0, 0, 50, 40⟩, was_minimized := false,
    was_maximized := false, set_placement_ok := true, set_pos_ok := false,
    err_get := "g", err_set := "s", err_pos := "p" }

/-- Witness for C1: when the move/resize call fails, the trace ends at that
call and the returned message names the move step. -/
theorem move_window_failure_aborts_witness :
    ∃ c, (move_window_to_monitor_with_options fixture_oracle_posfail
        fixture_monitor none (fun w h => (w, h)) false false).2.getLast? = some c
      ∧ call_fails fixture_oracle_posfail c = true
      ∧ error_names_step fixture_oracle_posfail "Failed to move window: p" c :=
  (move_window_failure_aborts fixture_oracle_posfail fixture_monitor none
      (fun w h => (w, h)) false false).2.2 "Failed to move window: p" rfl

/-- C3 counterexample: on the empty monitor list `move_to_next_monitor`
returns the error "No monitors available", not success, refuting the claim
that every list with fewer than 2 monitors yields success. -/
theorem move_to_next_monitor_empty_not_success :
    move_to_next_monitor [] none "" fixture_oracle_ok (fun w h => (w, h))
        = (Except.error "No monitors available", [])
      ∧ (move_to_next_monitor [] none "" fixture_oracle_ok
          (fun w h => (w, h))).1 ≠ Except.ok () := by
  constructor
  · rfl
  · simp [move_to_next_monitor]

/-- C3 amended: with fewer than 2 monitors `move_to_next_monitor` performs
no OS call (so geometry is untouched); with exactly one monitor it returns
success, while with the empty list it returns the error
"No monitors available". -/
theorem move_to_next_monitor_few_monitors (window_rect : Option WindowRect)
    (err_rect : String) (o : MoveOracle) (scale_fn : Int → Int → Int × Int) :
    move_to_next_monitor [] window_rect err_rect o scale_fn
        = (Except.error "No monitors available", [])
      ∧ ∀ m : MonitorInfo, move_to_next_monitor [m] window_rect err_rect o scale_fn
        = (Except.ok (), []) := by
  constructor
  · rfl
  · intro m
    simp [move_to_next_monitor]

/-- First monitor of the C2 counterexample, bounds 10x10 at the origin. -/
def cex_monitor_a : MonitorInfo :=
  { handle := 1, name := "A".toList, device_name := [],
    bounds := ⟨0, 0, 10, 10⟩, work_area := ⟨0, 0, 10, 10⟩,
    is_primary := true, display_index := 0 }

/-- Second monitor of the C2 counterexample, bounds 10x10 further down. -/
def cex_monitor_b : MonitorInfo :=
  { handle := 2, name := "B".toList, device_name := [],
    bounds := ⟨0, 20, 10, 30⟩, work_area := ⟨0, 20, 10, 30⟩,
    is_primary := false, display_index := 1 }

/-- A rectangle whose center (5, 15) lies in neither monitor and which
overlaps both monitors with equal area 20. -/
def cex_rect : WindowRect := ⟨0, 8, 10, 22⟩

/-- C2 counterexample: the window center lies in neither monitor, both
monitors intersect the rectangle with EQUAL overlap area, and
`find_window_monitor` assigns the LAST such monitor in enumeration order
("B"), not the first ("A") as the claim states. -/
theorem find_window_monitor_tie_goes_last :
    (∀ m ∈ [cex_monitor_a, cex_monitor_b], center_in_bounds cex_rect m = false)
      ∧ cex_rect.intersects cex_monitor_a.bounds = true
      ∧ cex_rect.intersects cex_monitor_b.bounds = true
      ∧ overlap_area cex_rect cex_monitor_a = overlap_area cex_rect cex_monitor_b
      ∧ find_window_monitor cex_rect [cex_monitor_a, cex_monitor_b]
          = some cex_monitor_b.name
      ∧ find_window_monitor cex_rect [cex_monitor_a, cex_monitor_b]
          ≠ some cex_monitor_a.name := by
  decide

/-- C2 amended: monitor assignment is: the first monitor (in enumeration
order) containing the rectangle's center under the half-open test;
otherwise, if no monitor intersects, no assignment; otherwise the
intersecting monitor with the largest overlap area, ties broken by the
LAST such monitor in enumeration order (Rust `max_by_key` keeps the later
of equal keys). -/
theorem find_window_monitor_assignment (rect : WindowRect)
    (monitors : List MonitorInfo) :
    (∀ m, monitors.find? (fun m => center_in_bounds rect m) = some m →
        find_window_monitor rect monitors = some m.name)
    ∧ (monitors.find? (fun m => center_in_bounds rect m) = none →
        ((∀ m ∈ monitors, rect.intersects m.bounds = false) →
            find_window_monitor rect monitors = none)
        ∧ ((∃ m ∈ monitors, rect.intersects m.bounds = true) →
            ∃ chosen l₁ l₂,
              find_window_monitor rect monitors = some chosen.name
              ∧ monitors.filter (fun m => rect.intersects m.bounds)
                  = l₁ ++ chosen :: l₂
              ∧ (∀ m ∈ monitors, rect.intersects m.bounds = true →
                  overlap_area rect m ≤ overlap_area rect chosen)
              ∧ ∀ m ∈ l₂, overlap_area rect m < overlap_area rect chosen)) := by
  refine ⟨?_, ?_⟩
  · intro m hm
    simp [find_window_monitor, hm]
  · intro hnone
    refine ⟨?_, ?_⟩
    · intro hno
      have hnil : monitors.filter (fun m => rect.intersects m.bounds) = [] :=
        List.filter_eq_nil_iff.mpr (fun a ha => by simp [hno a ha])
      simp [find_window_monitor, hnone, hnil, max_by_key_last]
    · rintro ⟨m0, hm0, hint⟩
      have hm0f : m0 ∈ monitors.filter (fun m => rect.intersects m.bounds) :=
        List.mem_filter.mpr ⟨hm0, hint⟩
      cases hmax : max_by_key_last (fun m => overlap_area rect m)
          (monitors.filter (fun m => rect.intersects m.bounds)) with
      | none =>
        exfalso
        rw [max_by_key_last_eq_none.mp hmax] at hm0f
        exact List.not_mem_nil _ hm0f
      | some chosen =>
        have hfind : find_window_monitor rect monitors = some chosen.name := by
          simp [find_window_monitor, hnone, hmax]
        obtain ⟨l₁, l₂, hdec, hmaxi, hstrict⟩ := max_by_key_last_spec _ hmax
        exact ⟨chosen, l₁, l₂, hfind, hdec,
          fun m hm hi => hmaxi m (List.mem_filter.mpr ⟨hm, hi⟩), hstrict⟩

/-- Witness for the amended C2 in the overlap-fallback case, at the
counterexample configuration. -/
theorem find_window_monitor_assignment_witness :
    ∃ chosen l₁ l₂,
      find_window_monitor cex_rect [cex_monitor_a, cex_monitor_b]
          = some chosen.name
        ∧ [cex_monitor_a, cex_monitor_b].filter
            (fun m => cex_rect.intersects m.bounds) = l₁ ++ chosen :: l₂
        ∧ (∀ m ∈ [cex_monitor_a, cex_monitor_b],
            cex_rect.intersects m.bounds = true →
              overlap_area cex_rect m ≤ overlap_area cex_rect chosen)
        ∧ ∀ m ∈ l₂, overlap_area cex_rect m < overlap_area cex_rect chosen :=
  ((find_window_monitor_assignment cex_rect [cex_monitor_a, cex_monitor_b]).2
      (by decide)).2 ⟨cex_monitor_a, by decide, by decide⟩

/-- C4 counterexample: the title "program manager" matches the denylist
entry "Program Manager" under case-insensitive exact comparison, yet
`should_skip_window` does NOT skip it: the exact-match check is
case-sensitive and the substring checks cover only two fixed phrases. -/
theorem should_skip_window_case_insensitive_refuted :
    (∃ entry ∈ SKIP_TITLES,
        to_lowercase "program manager".toList = to_lowercase entry)
      ∧ should_skip_window "program manager".toList = false := by
  decide

/-- C4 amended: a title is rejected iff it exactly (case-sensitively)
matches a denylist entry, or its lowercased form contains the substring
"dwm notification" or "desktop window manager". -/
theorem should_skip_window_characterization (title : List Char) :
    should_skip_window title = true ↔
      (title ∈ SKIP_TITLES
        ∨ (∃ s t, to_lowercase title = s ++ "dwm notification".toList ++ t)
        ∨ ∃ s t, to_lowercase title
            = s ++ "desktop window manager".toList ++ t) := by
  unfold should_skip_window
  simp only [Bool.or_eq_true, contains_sub_iff, List.elem_iff]

theorem not_beq_gt_iff (x : Ordering) :
    (!(x == Ordering.gt)) = true ↔ x ≠ Ordering.gt := by
  cases x <;> decide

/-- The sort relation of `enumerate_windows` is total. -/
theorem window_le_total (a b : WindowInfo) :
    (window_le a b || window_le b a) = true := by
  simp only [window_le, window_cmp]
  cases ha : a.is_offscreen <;> cases hb : b.is_offscreen <;> dsimp only <;>
    first
    | rfl
    | (rw [cmp_chars_swap (to_lowercase a.title) (to_lowercase b.title)]
       cases cmp_chars (to_lowercase a.title) (to_lowercase b.title) <;> rfl)

/-- The sort relation of `enumerate_windows` is transitive. -/
theorem window_le_trans (a b c : WindowInfo) (h1 : window_le a b = true)
    (h2 : window_le b c = true) : window_le a c = true := by
  simp only [window_le, window_cmp] at h1 h2 ⊢
  revert h1 h2
  cases ha : a.is_offscreen <;> cases hb : b.is_offscreen <;>
    cases hc : c.is_offscreen <;> dsimp only <;> intro h1 h2 <;>
    first
    | rfl
    | exact (Bool.false_ne_true h1).elim
    | exact (Bool.false_ne_true h2).elim
    | exact (not_beq_gt_iff _).mpr
        (cmp_chars_le_trans ((not_beq_gt_iff _).mp h1) ((not_beq_gt_iff _).mp h2))

/-- C8: the list `enumerate_windows` returns is sorted with all off-screen
windows before all on-screen windows, within each partition in
case-insensitive lexicographic title order; and the sort is stable: windows
with equal sort key (off-screen flag and lowercased title) keep their
enumeration order. -/
theorem enumerate_windows_sort_policy (monitors : List MonitorInfo)
    (os_windows : List OsWindow) :
    List.Pairwise
        (fun a b =>
          (a.is_offscreen = false → b.is_offscreen = false)
          ∧ (a.is_offscreen = b.is_offscreen →
              cmp_chars (to_lowercase a.title) (to_lowercase b.title)
                ≠ Ordering.gt))
        (enumerate_windows monitors os_windows)
      ∧ ∀ key_off : Bool, ∀ key_title : List Char,
        (enumerate_windows monitors os_windows).filter
            (fun w => w.is_offscreen == key_off
              && to_lowercase w.title == key_title)
          = ((os_windows.filterMap enum_windows_callback).map
              (classify_window monitors)).filter
            (fun w => w.is_offscreen == key_off
              && to_lowercase w.title == key_title) := by
  constructor
  · have hp := List.sorted_mergeSort
      (fun a b c h1 h2 => window_le_trans a b c h1 h2) window_le_total
      ((os_windows.filterMap enum_windows_callback).map (classify_window monitors))
    refine List.Pairwise.imp ?_ hp
    intro a b hab
    constructor
    · intro haf
      cases hbf : b.is_offscreen with
      | false => rfl
      | true =>
        exfalso
        simp only [window_le, window_cmp, haf, hbf] at hab
        exact Bool.false_ne_true hab
    · intro heq
      cases haf : a.is_offscreen with
      | false =>
        have hbf : b.is_offscreen = false := by rw [← heq, haf]
        simp only [window_le, window_cmp, haf, hbf] at hab
        exact (not_beq_gt_iff _).mp hab
      | true =>
        have hbf : b.is_offscreen = true := by rw [← heq, haf]
        simp only [window_le, window_cmp, haf, hbf] at hab
        exact (not_beq_gt_iff _).mp hab
  · intro key_off key_title
    set p : WindowInfo → Bool :=
      fun w => w.is_offscreen == key_off && to_lowercase w.title == key_title
      with hp
    set l : List WindowInfo :=
      (os_windows.filterMap enum_windows_callback).map (classify_window monitors)
      with hl
    have hklass : ∀ a ∈ l.filter p, ∀ b ∈ l.filter p, window_le a b = true := by
      intro a ha b hb
      have hpa := (List.mem_filter.mp ha).2
      have hpb := (List.mem_filter.mp hb).2
      rw [hp] at hpa hpb
      simp only [Bool.and_eq_true, beq_iff_eq] at hpa hpb
      cases key_off with
      | false =>
        simp only [window_le, window_cmp, hpa.1, hpb.1, hpa.2, hpb.2,
          cmp_chars_self]
        rfl
      | true =>
        simp only [window_le, window_cmp, hpa.1, hpb.1, hpa.2, hpb.2,
          cmp_chars_self]
        rfl
    have hpc : List.Pairwise (fun a b => window_le a b = true) (l.filter p) :=
      List.pairwise_of_forall_mem_list hklass
    have hsub : (l.filter p).Sublist (l.mergeSort window_le) :=
      List.sublist_mergeSort (fun a b c h1 h2 => window_le_trans a b c h1 h2)
        window_le_total hpc (List.filter_sublist l)
    have hself : (l.filter p).filter p = l.filter p :=
      List.filter_eq_self.mpr (fun a ha => (List.mem_filter.mp ha).2)
    have hsub2 : (l.filter p).Sublist ((l.mergeSort window_le).filter p) := by
      have := List.Sublist.filter p hsub
      rwa [hself] at this
    have hperm : ((l.mergeSort window_le).filter p).Perm (l.filter p) :=
      List.Perm.filter p (List.mergeSort_perm l window_le)
    have hlen : (l.filter p).length = ((l.mergeSort window_le).filter p).length :=
      (List.Perm.length_eq hperm).symm
    exact (List.Sublist.eq_of_length hsub2 hlen).symm

/-- Witness for C8 at a concrete enumeration. -/
theorem enumerate_windows_sort_policy_witness :
    List.Pairwise
        (fun a b =>
          (a.is_offscreen = false → b.is_offscreen = false)
          ∧ (a.is_offscreen = b.is_offscreen →
              cmp_chars (to_lowercase a.title) (to_lowercase b.title)
                ≠ Ordering.gt))
        (enumerate_windows [fixture_monitor] [fixture_os_window])
      ∧ ∀ key_off : Bool, ∀ key_title : List Char,
        (enumerate_windows [fixture_monitor] [fixture_os_window]).filter
            (fun w => w.is_offscreen == key_off
              && to_lowercase w.title == key_title)
          = (([fixture_os_window].filterMap enum_windows_callback).map
              (classify_window [fixture_monitor])).filter
            (fun w => w.is_offscreen == key_off
              && to_lowercase w.title == key_title) :=
  enumerate_windows_sort_policy [fixture_monitor] [fixture_os_window]

/-- Witness for the amended C3 at a concrete oracle. -/
theorem move_to_next_monitor_few_monitors_witness :
    move_to_next_monitor [] none "" fixture_oracle_ok (fun w h => (w, h))
        = (Except.error "No monitors available", [])
      ∧ ∀ m : MonitorInfo,
        move_to_next_monitor [m] none "" fixture_oracle_ok (fun w h => (w, h))
          = (Except.ok (), []) :=
  move_to_next_monitor_few_monitors none "" fixture_oracle_ok (fun w h => (w, h))

/-- Witness for the amended C4 at a concrete denylisted title. -/
theorem should_skip_window_characterization_witness :
    should_skip_window "Program Manager".toList = true ↔
      ("Program Manager".toList ∈ SKIP_TITLES
        ∨ (∃ s t, to_lowercase "Program Manager".toList
            = s ++ "dwm notification".toList ++ t)
        ∨ ∃ s t, to_lowercase "Program Manager".toList
            = s ++ "desktop window manager".toList ++ t) :=
  should_skip_window_characterization "Program Manager".toList
